import Mathlib

/-!
Shallow embedding of src/ppsr.py: a FastAPI endpoint driving one scripted
Playwright browser session against the PPSR portal.  The browser and the page
are modelled by a `PageEnv` describing which page interactions succeed and what
the page contains; `open_ppsr_site` reproduces the control flow of the Python
coroutine of the same name, recording every observable action in an `Event`
trace and returning either a raised error or the response dictionary.  The
HTTP endpoint `open_ppsr` wraps it, generating the request id from a UUID and
turning raised errors into HTTP 500 responses.
-/

namespace PPSR

/-- Selector constants from src/ppsr.py lines 43-54. -/
def DECLARATION_CHECKBOX : String := "#ctl00_ctl00_m_cpContent_cbDeclaration_cbDeclaration"

def MAIN_MENU : String := "#mainMenu"

def VIN_INPUT : String := "#ctl00_ctl00_m_cpProgressWizard_ucPW_ucSN_ucSN_txtVIN"

def SEARCH_DECLARATION_CB : String := "#ctl00_ctl00_m_cpProgressWizard_ucPW_ucSN_ucDeclarationCheckboxAndContent_cbDeclaration"

def SEARCH_BUTTON : String := "#ctl00_ctl00_m_cpProgressWizard_ucPW_btnNext"

def PLATE_VALUE_ID : String := "#ctl00_ctl00_m_cpProgressWizard_ucPW_ucR_ucRM_ucNevdisInformationForMultiple_rptMotorVehicles_ctl00_lblPlateNumberValue"

def LOGIN_BUTTON : String := "#ctl00_ctl00_m_cpContent_btnLogin"

/-- Model of the `LOG_DIR` base directory (src/ppsr.py line 27). -/
def LOG_DIR : String := "logs"

/-- Request body schema (src/ppsr.py lines 83-87, class LoginRequest). -/
structure LoginRequest where
  username : String
  password : String
  vin_number : String
  plate_number : Option String := none
deriving DecidableEq

/-- The steps of the linear script, in source order. -/
inductive Step
  | pageLoad
  | formWait
  | usernameFill
  | passwordFill
  | declCheckbox
  | loginSubmit
  | menuNav
  | vinEntry
  | searchClick
  | extraction
deriving DecidableEq

/-- The three login submission mechanisms of src/ppsr.py lines 200-228. -/
inductive LoginMech
  | explicitButton
  | genericSubmit
  | enterKey
deriving DecidableEq

/-- Observable actions of one run: screenshots written to the run directory,
checkbox check() calls, the start of each script step, login submission
attempts, the Playwright trace export, and the browser close. -/
inductive Event
  | screenshot (name : String)
  | checkAction (selector : String)
  | stepStarted (s : Step)
  | loginAttempt (m : LoginMech)
  | traceSaved (path : String)
  | browserClosed
deriving DecidableEq

/-- The environment a run executes against: which waits/locators succeed and
what state the page is in.  Each field models the success or failure of the
corresponding Playwright interaction in src/ppsr.py. -/
structure PageEnv where
  /-- page.goto reaches domcontentloaded within its timeout (line 144). -/
  pageLoads : Bool
  /-- the login form selector appears within its timeout (line 155). -/
  formFound : Bool
  /-- a text input exists for the username (line 164). -/
  usernameFieldPresent : Bool
  /-- a password input exists (line 174). -/
  passwordFieldPresent : Bool
  /-- the declaration checkbox wait/read/check calls all succeed (lines 184-189). -/
  declStepOk : Bool
  /-- the login declaration checkbox is already checked (line 185). -/
  declChecked : Bool
  /-- the explicit login button selector appears within its timeout (line 202). -/
  loginBtnPresent : Bool
  /-- clicking the explicit login button succeeds, normally or force (lines 207-214). -/
  loginBtnClickOk : Bool
  /-- a generic submit control exists (line 220). -/
  genericSubmitPresent : Bool
  /-- the two-level hover menu traversal succeeds (lines 237-267). -/
  menuNavOk : Bool
  /-- the VIN entry and search-declaration block succeeds (lines 274-304). -/
  vinStepOk : Bool
  /-- the search declaration checkbox is already checked (line 297). -/
  searchCbChecked : Bool
  /-- the search button wait and click succeed (lines 311-324). -/
  searchStepOk : Bool
  /-- the specific plate value element has count > 0 (line 334). -/
  plateElemPresent : Bool
  /-- inner_text of the specific plate element, none if the wait/read throws. -/
  plateElemRead : Option String
  /-- inner_text of the dd next to the dt label, none if absent or it throws. -/
  dtRead : Option String
deriving DecidableEq

/-- Response dictionary returned on line 357-364 of src/ppsr.py. -/
structure RunResponse where
  status : String
  message : String
  plateNumber : Option String
  requestId : String
  logsDir : String
  tracePath : String
deriving DecidableEq

/-- The exceptions `open_ppsr_site` can raise: the five fatal step failures,
plus the NameError raised at the return statement when `plate_number` was
never assigned because extraction failed. -/
inductive RunError
  | pageLoadFailed
  | loginFormNotFound
  | usernameFieldNotFound
  | passwordFieldNotFound
  | declCheckboxFailed
  | unboundLocalPlateNumber
deriving DecidableEq

/-- str(e) for each raised exception, as built by the f-strings in the source. -/
def RunError.detail : RunError → String
  | RunError.pageLoadFailed => "Failed to load page"
  | RunError.loginFormNotFound => "Login form not found"
  | RunError.usernameFieldNotFound => "Username field not found"
  | RunError.passwordFieldNotFound => "Password field not found"
  | RunError.declCheckboxFailed => "Declaration checkbox not found or not clickable"
  | RunError.unboundLocalPlateNumber => "name plate_number is not defined"

/-- Whitespace test used by Python str.strip(). -/
def isSpaceChar (c : Char) : Bool :=
  c = ' ' || c = '\t' || c = '\n' || c = '\r'

/-- Python str.strip(): drop whitespace from both ends. -/
def pyStrip (s : String) : String :=
  String.mk (((s.toList.dropWhile isSpaceChar).reverse.dropWhile isSpaceChar).reverse)

/-- Per-request run folder os.path.join(LOG_DIR, request_id) (line 97). -/
def run_dir_of (request_id : String) : String :=
  LOG_DIR ++ "/" ++ request_id

/-- Trace archive path os.path.join(run_dir, trace-id.zip) (line 351). -/
def trace_path_of (request_id : String) : String :=
  run_dir_of request_id ++ "/trace-" ++ request_id ++ ".zip"

/-- Login submission (lines 199-228): the explicit button is waited for and, if
present, clicked (with a force-click fallback); if it is absent or every click
raises, the outer except falls back to a generic submit control if one exists,
else an Enter keypress. -/
def loginSubmitEvents (env : PageEnv) : List Event :=
  (if env.loginBtnPresent then [Event.loginAttempt LoginMech.explicitButton] else []) ++
    (if env.loginBtnPresent && env.loginBtnClickOk then []
     else if env.genericSubmitPresent then [Event.loginAttempt LoginMech.genericSubmit]
     else [Event.loginAttempt LoginMech.enterKey])

/-- Menu traversal (lines 236-270): on success a checkpoint screenshot, on any
failure an error screenshot; either way the run continues. -/
def menuNavEvents (env : PageEnv) : List Event :=
  Event.stepStarted Step.menuNav ::
    (if env.menuNavOk then [Event.screenshot "ppsr_after_menu_nav.png"]
     else [Event.screenshot "ppsr_nav_error.png"])

/-- VIN entry and search declaration checkbox (lines 272-307): the checkbox is
checked only when is_checked returns false; any failure in the block is caught
with an error screenshot. -/
def vinStepEvents (env : PageEnv) : List Event :=
  Event.stepStarted Step.vinEntry ::
    (if env.vinStepOk then
      (if env.searchCbChecked then [] else [Event.checkAction SEARCH_DECLARATION_CB]) ++
        [Event.screenshot "ppsr_after_vin_and_decl.png"]
     else [Event.screenshot "ppsr_vin_decl_error.png"])

/-- Search button click (lines 309-327). -/
def searchStepEvents (env : PageEnv) : List Event :=
  Event.stepStarted Step.searchClick ::
    (if env.searchStepOk then [Event.screenshot "ppsr_after_search_click.png"]
     else [Event.screenshot "ppsr_search_click_error.png"])

/-- Extraction (lines 329-346): the local variable plate_number ends up bound
to the stripped inner text of the specific plate element when its count is
positive, else of the dd sibling of the labelled dt; none models the variable
staying unbound because the chosen branch raised. -/
def extractPlate (env : PageEnv) : Option String :=
  if env.plateElemPresent then env.plateElemRead.map pyStrip
  else env.dtRead.map pyStrip

/-- Extraction step events: success screenshot or caught-failure screenshot. -/
def extractionEvents (env : PageEnv) : List Event :=
  Event.stepStarted Step.extraction ::
    (match extractPlate env with
     | some _ => [Event.screenshot "ppsr_plate_extracted.png"]
     | none => [Event.screenshot "ppsr_plate_extract_error.png"])

/-- Events after extraction (lines 348-355): final screenshot, trace export,
browser close. -/
def checkpointTail (request_id : String) : List Event :=
  [Event.screenshot "ppsr_after_login.png",
   Event.traceSaved (trace_path_of request_id),
   Event.browserClosed]

/-- Events up to and including the start of the declaration checkbox step on a
run where page load, form wait, and both credential fields succeeded. -/
def headerEvents : List Event :=
  [Event.stepStarted Step.pageLoad, Event.screenshot "ppsr_initial.png",
   Event.stepStarted Step.formWait, Event.stepStarted Step.usernameFill,
   Event.stepStarted Step.passwordFill, Event.stepStarted Step.declCheckbox]

/-- Events of a run that passed all five fatal steps: optional declaration
check action, login submission, then the four guarded steps and the tail. -/
def happyTail (env : PageEnv) (request_id : String) : List Event :=
  (if env.declChecked then [] else [Event.checkAction DECLARATION_CHECKBOX]) ++
    (Event.stepStarted Step.loginSubmit :: loginSubmitEvents env) ++
    menuNavEvents env ++ vinStepEvents env ++ searchStepEvents env ++
    extractionEvents env ++ checkpointTail request_id

/-- src/ppsr.py lines 92-364, async def open_ppsr_site.  The five guard
clauses close the browser and raise; each of the remaining steps is guarded by
try/except and always fall through to the next.  At the return statement the
Python expression `plate_number if plate_number else None` raises a NameError
when extraction failed, because no branch ever bound the variable. -/
def open_ppsr_site (env : PageEnv) (data : LoginRequest) (request_id : String) :
    List Event × Except RunError RunResponse :=
  if env.pageLoads = false then
    ([Event.stepStarted Step.pageLoad, Event.browserClosed],
     Except.error RunError.pageLoadFailed)
  else if env.formFound = false then
    ([Event.stepStarted Step.pageLoad, Event.screenshot "ppsr_initial.png",
      Event.stepStarted Step.formWait, Event.screenshot "ppsr_form_not_found.png",
      Event.browserClosed],
     Except.error RunError.loginFormNotFound)
  else if env.usernameFieldPresent = false then
    ([Event.stepStarted Step.pageLoad, Event.screenshot "ppsr_initial.png",
      Event.stepStarted Step.formWait, Event.stepStarted Step.usernameFill,
      Event.browserClosed],
     Except.error RunError.usernameFieldNotFound)
  else if env.passwordFieldPresent = false then
    ([Event.stepStarted Step.pageLoad, Event.screenshot "ppsr_initial.png",
      Event.stepStarted Step.formWait, Event.stepStarted Step.usernameFill,
      Event.stepStarted Step.passwordFill, Event.browserClosed],
     Except.error RunError.passwordFieldNotFound)
  else if env.declStepOk = false then
    (headerEvents ++ [Event.screenshot "ppsr_checkbox_error.png", Event.browserClosed],
     Except.error RunError.declCheckboxFailed)
  else
    (headerEvents ++ happyTail env request_id,
     match extractPlate env with
     | none => Except.error RunError.unboundLocalPlateNumber
     | some s =>
         Except.ok
           { status := "success"
             message := "Login attempt completed"
             plateNumber := if s = "" then none else some s
             requestId := request_id
             logsDir := run_dir_of request_id
             tracePath := trace_path_of request_id })

/-- HTTP outcome of the endpoint: a 200 with the response dictionary, or an
HTTPException with status 500 and the exception message as detail. -/
inductive HttpResult
  | ok (r : RunResponse)
  | serverError (code : Nat) (detail : String)
deriving DecidableEq

/-- One full HTTP call: the generated request id, the run's event trace, and
the HTTP outcome. -/
structure HttpCall where
  requestId : String
  events : List Event
  result : HttpResult
deriving DecidableEq

/-- src/ppsr.py lines 369-390, async def open_ppsr.  The request id is the
first 8 characters of uuid4().hex (modelled as the 32 hex characters of the
fresh UUID); any exception becomes HTTPException(status_code=500). -/
def open_ppsr (env : PageEnv) (data : LoginRequest) (uuidHexChars : List Char) : HttpCall :=
  match (open_ppsr_site env data (String.mk (uuidHexChars.take 8))).2 with
  | Except.ok resp =>
      { requestId := String.mk (uuidHexChars.take 8)
        events := (open_ppsr_site env data (String.mk (uuidHexChars.take 8))).1
        result := HttpResult.ok resp }
  | Except.error e =>
      { requestId := String.mk (uuidHexChars.take 8)
        events := (open_ppsr_site env data (String.mk (uuidHexChars.take 8))).1
        result := HttpResult.serverError 500 (RunError.detail e) }

/-- All five fatal steps pass. -/
def fatalPass (env : PageEnv) : Bool :=
  env.pageLoads && env.formFound && env.usernameFieldPresent &&
    env.passwordFieldPresent && env.declStepOk

/-- The raised errors that abort the step sequence (everything but the
NameError raised after the sequence finished). -/
def RunError.isFatalStep : RunError → Bool
  | RunError.unboundLocalPlateNumber => false
  | _ => true

/-- The run aborted partway through the step sequence. -/
def fatallyAborted (r : List Event × Except RunError RunResponse) : Bool :=
  match r.2 with
  | Except.error e => e.isFatalStep
  | Except.ok _ => false

/-- The login submission mechanisms attempted during a run, in order. -/
def loginAttemptsOf (evs : List Event) : List LoginMech :=
  evs.filterMap fun e =>
    match e with
    | Event.loginAttempt m => some m
    | _ => none

/-- The checkbox check() calls performed during a run, in order. -/
def checkActionsOf (evs : List Event) : List String :=
  evs.filterMap fun e =>
    match e with
    | Event.checkAction sel => some sel
    | _ => none

/-- Whether the trace archive was exported during a run. -/
def savesTrace (evs : List Event) : Bool :=
  evs.any fun e =>
    match e with
    | Event.traceSaved _ => true
    | _ => false

/-- Whether any screenshot was written during a run. -/
def takesScreenshot (evs : List Event) : Bool :=
  evs.any fun e =>
    match e with
    | Event.screenshot _ => true
    | _ => false

/-- Final state of a checkbox handled by `if not is_checked: check()`. -/
def checkboxAfter (alreadyChecked : Bool) : Bool :=
  if !alreadyChecked then true else alreadyChecked

/-- Hex digit as produced by uuid4().hex (lowercase). -/
def isHexDigit (c : Char) : Bool :=
  c.isDigit || ('a' ≤ c && c ≤ 'f')

/-- A sample request body. -/
def dataEx : LoginRequest :=
  { username := "u", password := "p", vin_number := "1HGCM82633A123456" }

/-- A page environment where every interaction succeeds. -/
def envAllOk : PageEnv :=
  { pageLoads := true, formFound := true, usernameFieldPresent := true,
    passwordFieldPresent := true, declStepOk := true, declChecked := false,
    loginBtnPresent := true, loginBtnClickOk := true, genericSubmitPresent := true,
    menuNavOk := true, vinStepOk := true, searchCbChecked := false,
    searchStepOk := true, plateElemPresent := true, plateElemRead := some "ABC123",
    dtRead := some "XYZ789" }

/-- Sample uuid4().hex output: 32 lowercase hex characters. -/
def hexEx : List Char := "0123456789abcdef0123456789abcdef".toList

/-- fatalPass unfolded into the five field conditions. -/
theorem fatalPass_iff (env : PageEnv) :
    fatalPass env = true ↔
      env.pageLoads = true ∧ env.formFound = true ∧ env.usernameFieldPresent = true ∧
        env.passwordFieldPresent = true ∧ env.declStepOk = true := by
  simp [fatalPass, Bool.and_eq_true, and_assoc]

/-- Shape of the event trace on a run passing all five fatal steps. -/
theorem site_events_happy (env : PageEnv) (data : LoginRequest) (rid : String)
    (h : fatalPass env = true) :
    (open_ppsr_site env data rid).1 = headerEvents ++ happyTail env rid := by
  obtain ⟨h1, h2, h3, h4, h5⟩ := (fatalPass_iff env).1 h
  simp [open_ppsr_site, h1, h2, h3, h4, h5]

/-- Shape of the result on a run passing all five fatal steps. -/
theorem site_result_happy (env : PageEnv) (data : LoginRequest) (rid : String)
    (h : fatalPass env = true) :
    (open_ppsr_site env data rid).2 =
      match extractPlate env with
      | none => Except.error RunError.unboundLocalPlateNumber
      | some s =>
          Except.ok
            { status := "success"
              message := "Login attempt completed"
              plateNumber := if s = "" then none else some s
              requestId := rid
              logsDir := run_dir_of rid
              tracePath := trace_path_of rid } := by
  obtain ⟨h1, h2, h3, h4, h5⟩ := (fatalPass_iff env).1 h
  simp [open_ppsr_site, h1, h2, h3, h4, h5]

/-- The endpoint's event trace is the run's event trace. -/
theorem open_ppsr_events (env : PageEnv) (data : LoginRequest) (u : List Char) :
    (open_ppsr env data u).events =
      (open_ppsr_site env data (String.mk (u.take 8))).1 := by
  unfold open_ppsr
  cases (open_ppsr_site env data (String.mk (u.take 8))).2 <;> rfl

/-- The endpoint's request id is the first 8 characters of the UUID hex. -/
theorem open_ppsr_requestId (env : PageEnv) (data : LoginRequest) (u : List Char) :
    (open_ppsr env data u).requestId = String.mk (u.take 8) := by
  unfold open_ppsr
  cases (open_ppsr_site env data (String.mk (u.take 8))).2 <;> rfl

/-- A run aborts partway iff one of the five fatal steps failed. -/
theorem fatallyAborted_eq (env : PageEnv) (data : LoginRequest) (rid : String) :
    fatallyAborted (open_ppsr_site env data rid) = !(fatalPass env) := by
  cases hx : extractPlate env <;> cases h1 : env.pageLoads <;> cases h2 : env.formFound <;>
    cases h3 : env.usernameFieldPresent <;> cases h4 : env.passwordFieldPresent <;>
    cases h5 : env.declStepOk <;>
    simp [open_ppsr_site, fatalPass, fatallyAborted, RunError.isFatalStep,
      h1, h2, h3, h4, h5, hx]

/-- C4: for every call in which the initial page navigation does not reach a
loaded state within its timeout, the call terminates with an HTTP 500 failure
response and no subsequent step of the sequence executes: the event trace
holds only the page-load attempt and the browser close. -/
theorem C4_page_load_failure_aborts_all (env : PageEnv) (data : LoginRequest)
    (u : List Char) (h : env.pageLoads = false) :
    (open_ppsr env data u).result =
        HttpResult.serverError 500 (RunError.detail RunError.pageLoadFailed) ∧
    (open_ppsr env data u).events =
        [Event.stepStarted Step.pageLoad, Event.browserClosed] ∧
    (∀ s : Step, s ≠ Step.pageLoad →
        Event.stepStarted s ∉ (open_ppsr env data u).events) := by
  refine ⟨?_, ?_, ?_⟩
  · unfold open_ppsr
    simp [open_ppsr_site, h]
  · rw [open_ppsr_events]
    simp [open_ppsr_site, h]
  · intro s hs
    rw [open_ppsr_events]
    simp [open_ppsr_site, h, hs]

/-- A page environment where the initial navigation times out. -/
def envC4 : PageEnv := { envAllOk with pageLoads := false }

/-- Witness for C4 at a concrete environment and request. -/
theorem C4_page_load_failure_aborts_all_witness :
    (open_ppsr envC4 dataEx hexEx).result =
        HttpResult.serverError 500 (RunError.detail RunError.pageLoadFailed) ∧
    (open_ppsr envC4 dataEx hexEx).events =
        [Event.stepStarted Step.pageLoad, Event.browserClosed] ∧
    (∀ s : Step, s ≠ Step.pageLoad →
        Event.stepStarted s ∉ (open_ppsr envC4 dataEx hexEx).events) :=
  C4_page_load_failure_aborts_all envC4 dataEx hexEx rfl

/-- C5: on every exit path of the run — each of the five fatal aborts, the
NameError raised after a failed extraction, and successful completion — the
browser is closed before the call returns. -/
theorem C5_browser_always_released (env : PageEnv) (data : LoginRequest) (rid : String) :
    Event.browserClosed ∈ (open_ppsr_site env data rid).1 := by
  cases h1 : env.pageLoads <;> cases h2 : env.formFound <;>
    cases h3 : env.usernameFieldPresent <;> cases h4 : env.passwordFieldPresent <;>
    cases h5 : env.declStepOk <;>
    simp [open_ppsr_site, h1, h2, h3, h4, h5, headerEvents, happyTail,
      checkpointTail, menuNavEvents, vinStepEvents, searchStepEvents, extractionEvents]

/-- A page environment where the declaration-checkbox step fails and every
earlier step succeeds. -/
def envC2 : PageEnv := { envAllOk with declStepOk := false }

/-- C2 counterexample: when every step before it succeeds, a failure of the
first declaration-checkbox step is not caught: the run aborts with a raised
error surfaced as HTTP 500 and the login-submission step never starts,
contradicting the claim that the first declaration-checkbox failure is
non-fatal. -/
theorem C2_checkbox_failure_is_fatal :
    (open_ppsr_site envC2 dataEx (String.mk (hexEx.take 8))).2 =
        Except.error RunError.declCheckboxFailed ∧
    Event.stepStarted Step.loginSubmit ∉
        (open_ppsr_site envC2 dataEx (String.mk (hexEx.take 8))).1 ∧
    (open_ppsr envC2 dataEx hexEx).result =
        HttpResult.serverError 500 (RunError.detail RunError.declCheckboxFailed) := by
  refine ⟨rfl, by decide, rfl⟩

/-- C2 (amended): exactly the page-load, login-form, username-field,
password-field, and first-declaration-checkbox failures abort the run with a
raised error surfaced as an HTTP 500 server error; every other step failure
(login submission, menu traversal, VIN entry, search click, extraction) is
caught and the sequence proceeds to the next step, with a diagnostic
screenshot for each such failure except the login-submission step. -/
theorem C2_amended_fatal_step_set (env : PageEnv) (data : LoginRequest) (u : List Char) :
    fatallyAborted (open_ppsr_site env data (String.mk (u.take 8))) = !(fatalPass env) ∧
    (fatalPass env = false →
      ∃ d, (open_ppsr env data u).result = HttpResult.serverError 500 d) ∧
    (fatalPass env = true →
      Event.stepStarted Step.loginSubmit ∈ (open_ppsr env data u).events ∧
      Event.stepStarted Step.menuNav ∈ (open_ppsr env data u).events ∧
      Event.stepStarted Step.vinEntry ∈ (open_ppsr env data u).events ∧
      Event.stepStarted Step.searchClick ∈ (open_ppsr env data u).events ∧
      Event.stepStarted Step.extraction ∈ (open_ppsr env data u).events ∧
      (env.menuNavOk = false →
        Event.screenshot "ppsr_nav_error.png" ∈ (open_ppsr env data u).events) ∧
      (env.vinStepOk = false →
        Event.screenshot "ppsr_vin_decl_error.png" ∈ (open_ppsr env data u).events) ∧
      (env.searchStepOk = false →
        Event.screenshot "ppsr_search_click_error.png" ∈ (open_ppsr env data u).events) ∧
      (extractPlate env = none →
        Event.screenshot "ppsr_plate_extract_error.png" ∈ (open_ppsr env data u).events)) := by
  refine ⟨fatallyAborted_eq env data (String.mk (u.take 8)), ?_, ?_⟩
  · intro hf
    have hb : fatallyAborted (open_ppsr_site env data (String.mk (u.take 8))) = true := by
      rw [fatallyAborted_eq env data (String.mk (u.take 8)), hf]
      rfl
    unfold fatallyAborted at hb
    unfold open_ppsr
    cases hres : (open_ppsr_site env data (String.mk (u.take 8))).2 with
    | ok resp => rw [hres] at hb; simp at hb
    | error e => exact ⟨RunError.detail e, rfl⟩
  · intro hf
    rw [open_ppsr_events, site_events_happy env data (String.mk (u.take 8)) hf]
    refine ⟨?_, ?_, ?_, ?_, ?_, ?_, ?_, ?_, ?_⟩
    · simp [headerEvents, happyTail]
    · simp [headerEvents, happyTail, menuNavEvents]
    · simp [headerEvents, happyTail, vinStepEvents]
    · simp [headerEvents, happyTail, searchStepEvents]
    · simp [headerEvents, happyTail, extractionEvents]
    · intro h6
      simp [headerEvents, happyTail, menuNavEvents, h6]
    · intro h7
      simp [headerEvents, happyTail, vinStepEvents, h7]
    · intro h8
      simp [headerEvents, happyTail, searchStepEvents, h8]
    · intro h9
      simp [headerEvents, happyTail, extractionEvents, h9]

/-- A page environment where the fatal steps pass but menu traversal, VIN
entry, search, and extraction all fail. -/
def envC2w : PageEnv :=
  { envAllOk with
      menuNavOk := false, vinStepOk := false, searchStepOk := false,
      plateElemPresent := false, plateElemRead := none, dtRead := none }

/-- Witness for C2 (amended) at a concrete environment where menu traversal,
VIN entry, search, and extraction all fail. -/
theorem C2_amended_fatal_step_set_witness :
    Event.stepStarted Step.loginSubmit ∈ (open_ppsr envC2w dataEx hexEx).events ∧
    Event.screenshot "ppsr_nav_error.png" ∈ (open_ppsr envC2w dataEx hexEx).events ∧
    Event.screenshot "ppsr_plate_extract_error.png" ∈ (open_ppsr envC2w dataEx hexEx).events :=
  ⟨((C2_amended_fatal_step_set envC2w dataEx hexEx).2.2 rfl).1,
   ((C2_amended_fatal_step_set envC2w dataEx hexEx).2.2 rfl).2.2.2.2.2.1 rfl,
   ((C2_amended_fatal_step_set envC2w dataEx hexEx).2.2 rfl).2.2.2.2.2.2.2.2 (by decide)⟩

/-- The two declaration checkboxes have different selectors. -/
theorem decl_ne_searchDecl : DECLARATION_CHECKBOX ≠ SEARCH_DECLARATION_CB := by
  decide

/-- The two declaration checkboxes have different selectors, reversed. -/
theorem searchDecl_ne_decl : SEARCH_DECLARATION_CB ≠ DECLARATION_CHECKBOX := by
  decide

/-- A check() call on a selector appears in the trace iff the selector is in
the list of performed check actions. -/
theorem checkAction_mem_iff (evs : List Event) (sel : String) :
    Event.checkAction sel ∈ evs ↔ sel ∈ checkActionsOf evs := by
  unfold checkActionsOf
  rw [List.mem_filterMap]
  constructor
  · intro h
    exact ⟨Event.checkAction sel, h, rfl⟩
  · rintro ⟨e, he, hf⟩
    cases e <;> simp_all

/-- checkActionsOf distributes over append. -/
theorem checkActionsOf_append (l1 l2 : List Event) :
    checkActionsOf (l1 ++ l2) = checkActionsOf l1 ++ checkActionsOf l2 := by
  simp [checkActionsOf]

/-- A step-start event contributes no check action. -/
theorem checkActionsOf_cons_step (s : Step) (l : List Event) :
    checkActionsOf (Event.stepStarted s :: l) = checkActionsOf l := by
  simp [checkActionsOf]

/-- The login submission block performs no check action. -/
theorem checkActionsOf_loginSubmit (env : PageEnv) :
    checkActionsOf (loginSubmitEvents env) = [] := by
  cases h1 : env.loginBtnPresent <;> cases h2 : env.loginBtnClickOk <;>
    cases h3 : env.genericSubmitPresent <;>
    simp [loginSubmitEvents, checkActionsOf, h1, h2, h3]

/-- The menu traversal block performs no check action. -/
theorem checkActionsOf_menuNav (env : PageEnv) :
    checkActionsOf (menuNavEvents env) = [] := by
  cases h : env.menuNavOk <;> simp [menuNavEvents, checkActionsOf, h]

/-- The VIN block checks the search declaration checkbox exactly when the
block succeeds and the checkbox was unchecked. -/
theorem checkActionsOf_vinStep (env : PageEnv) :
    checkActionsOf (vinStepEvents env) =
      if env.vinStepOk && !env.searchCbChecked then [SEARCH_DECLARATION_CB] else [] := by
  cases hv : env.vinStepOk <;> cases hs : env.searchCbChecked <;>
    simp [vinStepEvents, checkActionsOf, hv, hs]

/-- The search click block performs no check action. -/
theorem checkActionsOf_searchStep (env : PageEnv) :
    checkActionsOf (searchStepEvents env) = [] := by
  cases h : env.searchStepOk <;> simp [searchStepEvents, checkActionsOf, h]

/-- The extraction block performs no check action. -/
theorem checkActionsOf_extraction (env : PageEnv) :
    checkActionsOf (extractionEvents env) = [] := by
  cases hx : extractPlate env <;> simp [extractionEvents, checkActionsOf, hx]

/-- The final screenshot/trace/close tail performs no check action. -/
theorem checkActionsOf_tail (rid : String) :
    checkActionsOf (checkpointTail rid) = [] := by
  simp [checkpointTail, checkActionsOf]

/-- The fatal-step header performs no check action. -/
theorem checkActionsOf_header : checkActionsOf headerEvents = [] := by
  simp [headerEvents, checkActionsOf]

/-- The declaration chunk checks the login declaration checkbox exactly when
it was unchecked. -/
theorem checkActionsOf_declChunk (b : Bool) :
    checkActionsOf (if b then [] else [Event.checkAction DECLARATION_CHECKBOX]) =
      if b then [] else [DECLARATION_CHECKBOX] := by
  cases b <;> simp [checkActionsOf]

/-- All check() calls of a full run: the login declaration checkbox when it
was unchecked (only on runs passing the fatal steps), then the search
declaration checkbox when the VIN block succeeded and it was unchecked. -/
theorem checkActionsOf_run (env : PageEnv) (data : LoginRequest) (rid : String) :
    checkActionsOf (open_ppsr_site env data rid).1 =
      if fatalPass env = true then
        (if env.declChecked then [] else [DECLARATION_CHECKBOX]) ++
          (if env.vinStepOk && !env.searchCbChecked then [SEARCH_DECLARATION_CB] else [])
      else [] := by
  by_cases h : fatalPass env = true
  · rw [site_events_happy env data rid h, if_pos h]
    simp only [happyTail, checkActionsOf_append, checkActionsOf_header,
      checkActionsOf_cons_step, checkActionsOf_loginSubmit, checkActionsOf_menuNav,
      checkActionsOf_vinStep, checkActionsOf_searchStep, checkActionsOf_extraction,
      checkActionsOf_tail, checkActionsOf_declChunk]
    simp
  · cases h1 : env.pageLoads <;> cases h2 : env.formFound <;>
      cases h3 : env.usernameFieldPresent <;> cases h4 : env.passwordFieldPresent <;>
      cases h5 : env.declStepOk <;>
      simp_all [open_ppsr_site, fatalPass, checkActionsOf, headerEvents]

/-- C6: both declaration-checkbox steps are idempotent: when the login
declaration checkbox is already checked no check() call is issued for it, when
the search declaration checkbox is already checked no check() call is issued
for it, and the state a checkbox has after `if not is_checked: check()` is
checked in either case. -/
theorem C6_checkbox_idempotent (env : PageEnv) (data : LoginRequest) (rid : String) :
    (env.declChecked = true →
      Event.checkAction DECLARATION_CHECKBOX ∉ (open_ppsr_site env data rid).1) ∧
    (env.searchCbChecked = true →
      Event.checkAction SEARCH_DECLARATION_CB ∉ (open_ppsr_site env data rid).1) ∧
    checkboxAfter env.declChecked = true ∧
    checkboxAfter env.searchCbChecked = true := by
  refine ⟨?_, ?_, ?_, ?_⟩
  · intro h
    rw [checkAction_mem_iff, checkActionsOf_run]
    by_cases hf : fatalPass env = true
    · cases hb : (env.vinStepOk && !env.searchCbChecked) <;>
        simp [hf, h, hb, decl_ne_searchDecl]
    · simp [hf]
  · intro h
    rw [checkAction_mem_iff, checkActionsOf_run]
    by_cases hf : fatalPass env = true
    · cases hdc : env.declChecked <;> simp [hf, h, hdc, searchDecl_ne_decl]
    · simp [hf]
  · cases hdc : env.declChecked <;> simp [checkboxAfter]
  · cases hsc : env.searchCbChecked <;> simp [checkboxAfter]

/-- A page environment where both declaration checkboxes are already checked. -/
def envC6 : PageEnv := { envAllOk with declChecked := true, searchCbChecked := true }

/-- Witness for C6 at a concrete environment with both checkboxes checked. -/
theorem C6_checkbox_idempotent_witness :
    Event.checkAction DECLARATION_CHECKBOX ∉
        (open_ppsr_site envC6 dataEx "9f3a5c71").1 ∧
    Event.checkAction SEARCH_DECLARATION_CB ∉
        (open_ppsr_site envC6 dataEx "9f3a5c71").1 ∧
    checkboxAfter envC6.declChecked = true ∧
    checkboxAfter envC6.searchCbChecked = true :=
  ⟨(C6_checkbox_idempotent envC6 dataEx "9f3a5c71").1 rfl,
   (C6_checkbox_idempotent envC6 dataEx "9f3a5c71").2.1 rfl,
   (C6_checkbox_idempotent envC6 dataEx "9f3a5c71").2.2.1,
   (C6_checkbox_idempotent envC6 dataEx "9f3a5c71").2.2.2⟩

/-- loginAttemptsOf distributes over append. -/
theorem loginAttemptsOf_append (l1 l2 : List Event) :
    loginAttemptsOf (l1 ++ l2) = loginAttemptsOf l1 ++ loginAttemptsOf l2 := by
  simp [loginAttemptsOf]

/-- A step-start event contributes no login attempt. -/
theorem loginAttemptsOf_cons_step (s : Step) (l : List Event) :
    loginAttemptsOf (Event.stepStarted s :: l) = loginAttemptsOf l := by
  simp [loginAttemptsOf]

/-- The fatal-step header contains no login attempt. -/
theorem loginAttemptsOf_header : loginAttemptsOf headerEvents = [] := by
  simp [headerEvents, loginAttemptsOf]

/-- The declaration chunk contains no login attempt. -/
theorem loginAttemptsOf_declChunk (b : Bool) :
    loginAttemptsOf (if b then [] else [Event.checkAction DECLARATION_CHECKBOX]) = [] := by
  cases b <;> simp [loginAttemptsOf]

/-- The menu traversal block contains no login attempt. -/
theorem loginAttemptsOf_menuNav (env : PageEnv) :
    loginAttemptsOf (menuNavEvents env) = [] := by
  cases h : env.menuNavOk <;> simp [menuNavEvents, loginAttemptsOf, h]

/-- The VIN block contains no login attempt. -/
theorem loginAttemptsOf_vinStep (env : PageEnv) :
    loginAttemptsOf (vinStepEvents env) = [] := by
  cases hv : env.vinStepOk <;> cases hs : env.searchCbChecked <;>
    simp [vinStepEvents, loginAttemptsOf, hv, hs]

/-- The search click block contains no login attempt. -/
theorem loginAttemptsOf_searchStep (env : PageEnv) :
    loginAttemptsOf (searchStepEvents env) = [] := by
  cases h : env.searchStepOk <;> simp [searchStepEvents, loginAttemptsOf, h]

/-- The extraction block contains no login attempt. -/
theorem loginAttemptsOf_extraction (env : PageEnv) :
    loginAttemptsOf (extractionEvents env) = [] := by
  cases hx : extractPlate env <;> simp [extractionEvents, loginAttemptsOf, hx]

/-- The final tail contains no login attempt. -/
theorem loginAttemptsOf_tail (rid : String) :
    loginAttemptsOf (checkpointTail rid) = [] := by
  simp [checkpointTail, loginAttemptsOf]

/-- On a run passing the fatal steps, the login attempts of the whole run are
exactly the attempts of the login submission block. -/
theorem loginAttemptsOf_run (env : PageEnv) (data : LoginRequest) (rid : String)
    (h : fatalPass env = true) :
    loginAttemptsOf (open_ppsr_site env data rid).1 =
      loginAttemptsOf (loginSubmitEvents env) := by
  rw [site_events_happy env data rid h]
  simp only [happyTail, loginAttemptsOf_append, loginAttemptsOf_header,
    loginAttemptsOf_cons_step, loginAttemptsOf_declChunk, loginAttemptsOf_menuNav,
    loginAttemptsOf_vinStep, loginAttemptsOf_searchStep, loginAttemptsOf_extraction,
    loginAttemptsOf_tail]
  simp

/-- A page environment where the explicit login button is present but every
click on it raises, and a generic submit control exists. -/
def envC7 : PageEnv :=
  { envAllOk with loginBtnClickOk := false, genericSubmitPresent := true }

/-- C7 counterexample: when the explicit login button matches but its click
fails, the run does not stop at the matched mechanism: it also uses the
generic submit control, so two submission mechanisms are used in one call and
the first match does not win. -/
theorem C7_fallback_after_match :
    loginAttemptsOf (open_ppsr_site envC7 dataEx "9d80c2aa").1 =
      [LoginMech.explicitButton, LoginMech.genericSubmit] ∧
    (loginAttemptsOf (open_ppsr_site envC7 dataEx "9d80c2aa").1).length ≠ 1 := by
  refine ⟨by decide, by decide⟩

/-- C7 (amended): on every call reaching the login submission step, the
explicit login button is tried first when present; the fallback chain (a
generic submit control if present, else an Enter keypress) is used exactly
when the explicit button is absent or its click fails, and within the
fallback the first available mechanism wins; when the explicit button is
present and its click succeeds it is the only mechanism used. -/
theorem C7_amended_submission_order (env : PageEnv) (data : LoginRequest) (rid : String)
    (h : fatalPass env = true) :
    (env.loginBtnPresent = true → env.loginBtnClickOk = true →
      loginAttemptsOf (open_ppsr_site env data rid).1 = [LoginMech.explicitButton]) ∧
    (env.loginBtnPresent = false →
      loginAttemptsOf (open_ppsr_site env data rid).1 =
        (if env.genericSubmitPresent then [LoginMech.genericSubmit]
         else [LoginMech.enterKey])) ∧
    (env.loginBtnPresent = true → env.loginBtnClickOk = false →
      loginAttemptsOf (open_ppsr_site env data rid).1 =
        LoginMech.explicitButton ::
          (if env.genericSubmitPresent then [LoginMech.genericSubmit]
           else [LoginMech.enterKey])) := by
  refine ⟨?_, ?_, ?_⟩
  · intro hp hq
    rw [loginAttemptsOf_run env data rid h]
    simp [loginSubmitEvents, loginAttemptsOf, hp, hq]
  · intro hp
    rw [loginAttemptsOf_run env data rid h]
    cases hg : env.genericSubmitPresent <;>
      simp [loginSubmitEvents, loginAttemptsOf, hp, hg]
  · intro hp hq
    rw [loginAttemptsOf_run env data rid h]
    cases hg : env.genericSubmitPresent <;>
      simp [loginSubmitEvents, loginAttemptsOf, hp, hq, hg]

/-- Witness for C7 (amended): with the explicit button present and clickable,
it is the only submission mechanism used. -/
theorem C7_amended_submission_order_witness :
    loginAttemptsOf (open_ppsr_site envAllOk dataEx "77aa88bb").1 =
      [LoginMech.explicitButton] :=
  (C7_amended_submission_order envAllOk dataEx "77aa88bb" rfl).1 rfl rfl

/-- An environment where menu traversal fails, all fatal steps succeed, and
extraction finds neither the plate element nor the labelled field. -/
def envC1 : PageEnv :=
  { envAllOk with
      menuNavOk := false, plateElemPresent := false, plateElemRead := none,
      dtRead := none }

/-- C1 at the failing input: menu traversal fails, the earlier fatal steps
succeed, and extraction also fails.  The run does attempt the subsequent
VIN-entry and search steps, but the call does not return a success response
with a null plate value: the return statement raises a NameError on the
unbound plate_number local, surfaced as an HTTP 500 server error. -/
theorem C1_extraction_failure_raises_name_error :
    Event.stepStarted Step.vinEntry ∈ (open_ppsr envC1 dataEx hexEx).events ∧
    Event.stepStarted Step.searchClick ∈ (open_ppsr envC1 dataEx hexEx).events ∧
    (open_ppsr envC1 dataEx hexEx).result =
        HttpResult.serverError 500 (RunError.detail RunError.unboundLocalPlateNumber) := by
  refine ⟨by decide, by decide, rfl⟩

/-- A page environment where the initial navigation times out, for C3. -/
def envC3 : PageEnv := { envAllOk with pageLoads := false }

/-- C3 counterexample: on the page-load fatal abort nothing is persisted at
all: no screenshot is written and the trace archive is never exported,
contradicting the claim that every outcome attempts to persist both. -/
theorem C3_page_load_abort_persists_nothing :
    savesTrace (open_ppsr envC3 dataEx hexEx).events = false ∧
    takesScreenshot (open_ppsr envC3 dataEx hexEx).events = false := by
  refine ⟨by decide, by decide⟩

/-- C3 (amended): the session trace archive is exported exactly on runs that
pass the five fatal steps; on such runs the final checkpoint screenshot and
the trace archive in the per-call artifact directory are persisted even when
guarded steps failed.  On a fatal abort the trace is never exported, the
page-load abort writes no screenshot at all, while the form-detection and
declaration-checkbox aborts write a failure screenshot. -/
theorem C3_amended_artifact_persistence (env : PageEnv) (data : LoginRequest) (rid : String) :
    savesTrace (open_ppsr_site env data rid).1 = fatalPass env ∧
    (fatalPass env = true →
      Event.traceSaved (trace_path_of rid) ∈ (open_ppsr_site env data rid).1 ∧
      Event.screenshot "ppsr_after_login.png" ∈ (open_ppsr_site env data rid).1) ∧
    (env.pageLoads = false → takesScreenshot (open_ppsr_site env data rid).1 = false) ∧
    (env.pageLoads = true → env.formFound = false →
      Event.screenshot "ppsr_form_not_found.png" ∈ (open_ppsr_site env data rid).1) ∧
    (env.pageLoads = true → env.formFound = true → env.usernameFieldPresent = true →
        env.passwordFieldPresent = true → env.declStepOk = false →
      Event.screenshot "ppsr_checkbox_error.png" ∈ (open_ppsr_site env data rid).1) := by
  refine ⟨?_, ?_, ?_, ?_, ?_⟩
  · cases h1 : env.pageLoads <;> cases h2 : env.formFound <;>
      cases h3 : env.usernameFieldPresent <;> cases h4 : env.passwordFieldPresent <;>
      cases h5 : env.declStepOk <;>
      simp [open_ppsr_site, fatalPass, savesTrace, h1, h2, h3, h4, h5, headerEvents,
        happyTail, menuNavEvents, vinStepEvents, searchStepEvents, extractionEvents,
        checkpointTail, loginSubmitEvents]
  · intro h
    rw [site_events_happy env data rid h]
    constructor
    · simp [headerEvents, happyTail, checkpointTail]
    · simp [headerEvents, happyTail, checkpointTail]
  · intro h
    simp [open_ppsr_site, takesScreenshot, h]
  · intro h1 h2
    simp [open_ppsr_site, h1, h2]
  · intro h1 h2 h3 h4 h5
    simp [open_ppsr_site, h1, h2, h3, h4, h5, headerEvents]

/-- Witness for C3 (amended) at the all-success environment. -/
theorem C3_amended_artifact_persistence_witness :
    Event.traceSaved (trace_path_of "12ab34cd") ∈
        (open_ppsr_site envAllOk dataEx "12ab34cd").1 ∧
    Event.screenshot "ppsr_after_login.png" ∈
        (open_ppsr_site envAllOk dataEx "12ab34cd").1 :=
  (C3_amended_artifact_persistence envAllOk dataEx "12ab34cd").2.1 rfl

/-- A success response of the run carries the request id it was called with,
the artifact directory derived from it, and the trace path inside it. -/
theorem site_ok_fields (env : PageEnv) (data : LoginRequest) (rid : String)
    (resp : RunResponse) (h : (open_ppsr_site env data rid).2 = Except.ok resp) :
    resp.requestId = rid ∧ resp.logsDir = run_dir_of rid ∧
      resp.tracePath = trace_path_of rid := by
  by_cases hf : fatalPass env = true
  · rw [site_result_happy env data rid hf] at h
    cases hx : extractPlate env <;> rw [hx] at h
    · simp at h
    · simp only [Except.ok.injEq] at h
      rw [← h]
      exact ⟨rfl, rfl, rfl⟩
  · have hb := fatallyAborted_eq env data rid
    unfold fatallyAborted at hb
    rw [h] at hb
    rw [Bool.not_eq_true] at hf
    rw [hf] at hb
    simp at hb

/-- The endpoint returns 200 with a response iff the run returned it. -/
theorem open_ppsr_ok_iff (env : PageEnv) (data : LoginRequest) (u : List Char)
    (resp : RunResponse) :
    (open_ppsr env data u).result = HttpResult.ok resp ↔
      (open_ppsr_site env data (String.mk (u.take 8))).2 = Except.ok resp := by
  unfold open_ppsr
  cases hres : (open_ppsr_site env data (String.mk (u.take 8))).2 with
  | ok r => simp
  | error e => simp

/-- C9: exactly one correlation id is generated per call — the first 8
characters of the fresh UUID hex.  It has length 8, every character is a hex
digit, and a success response carries the same id, the artifact directory
derived from it, and the trace path inside that directory. -/
theorem C9_request_id_consistency (env : PageEnv) (data : LoginRequest) (u : List Char)
    (hlen : u.length = 32) (hhex : ∀ c ∈ u, isHexDigit c = true) :
    (open_ppsr env data u).requestId.length = 8 ∧
    (∀ c ∈ (open_ppsr env data u).requestId.toList, isHexDigit c = true) ∧
    (∀ resp, (open_ppsr env data u).result = HttpResult.ok resp →
      resp.requestId = (open_ppsr env data u).requestId ∧
      resp.logsDir = run_dir_of (open_ppsr env data u).requestId ∧
      resp.tracePath = trace_path_of (open_ppsr env data u).requestId) := by
  refine ⟨?_, ?_, ?_⟩
  · rw [open_ppsr_requestId]
    show (u.take 8).length = 8
    rw [List.length_take, hlen]
    rfl
  · rw [open_ppsr_requestId]
    intro c hc
    exact hhex c (List.take_subset 8 u hc)
  · intro resp hresp
    rw [open_ppsr_requestId]
    exact site_ok_fields env data (String.mk (u.take 8)) resp
      ((open_ppsr_ok_iff env data u resp).1 hresp)

/-- Witness for C9 at a concrete UUID hex and the all-success environment. -/
theorem C9_request_id_consistency_witness :
    (open_ppsr envAllOk dataEx hexEx).requestId.length = 8 ∧
    (∀ c ∈ (open_ppsr envAllOk dataEx hexEx).requestId.toList, isHexDigit c = true) ∧
    (∀ resp, (open_ppsr envAllOk dataEx hexEx).result = HttpResult.ok resp →
      resp.requestId = (open_ppsr envAllOk dataEx hexEx).requestId ∧
      resp.logsDir = run_dir_of (open_ppsr envAllOk dataEx hexEx).requestId ∧
      resp.tracePath = trace_path_of (open_ppsr envAllOk dataEx hexEx).requestId) :=
  C9_request_id_consistency envAllOk dataEx hexEx (by decide) (by decide)

/-- C8: on a run reaching extraction, the plate value is read from the
specific plate element when it is present — even when the labelled field is
also available — and otherwise from the value element adjacent to the
labelled field. -/
theorem C8_extraction_precedence (env : PageEnv) (data : LoginRequest) (rid : String)
    (h : fatalPass env = true) :
    (∀ s t, env.plateElemPresent = true → env.plateElemRead = some s →
        env.dtRead = some t →
      ∃ resp, (open_ppsr_site env data rid).2 = Except.ok resp ∧
        resp.plateNumber = (if pyStrip s = "" then none else some (pyStrip s))) ∧
    (∀ t, env.plateElemPresent = false → env.dtRead = some t →
      ∃ resp, (open_ppsr_site env data rid).2 = Except.ok resp ∧
        resp.plateNumber = (if pyStrip t = "" then none else some (pyStrip t))) := by
  constructor
  · intro s t hp hr hd
    have hx : extractPlate env = some (pyStrip s) := by
      simp [extractPlate, hp, hr]
    rw [site_result_happy env data rid h, hx]
    exact ⟨_, rfl, rfl⟩
  · intro t hp hd
    have hx : extractPlate env = some (pyStrip t) := by
      simp [extractPlate, hp, hd]
    rw [site_result_happy env data rid h, hx]
    exact ⟨_, rfl, rfl⟩

/-- A page environment where the specific plate element is absent but the
labelled field is available. -/
def envC8 : PageEnv :=
  { envAllOk with plateElemPresent := false, plateElemRead := none }

/-- Witness for C8: with both sources present the specific element wins; with
the specific element absent the labelled field is used. -/
theorem C8_extraction_precedence_witness :
    (∃ resp, (open_ppsr_site envAllOk dataEx "55ee66ff").2 = Except.ok resp ∧
      resp.plateNumber =
        (if pyStrip "ABC123" = "" then none else some (pyStrip "ABC123"))) ∧
    (∃ resp, (open_ppsr_site envC8 dataEx "55ee66ff").2 = Except.ok resp ∧
      resp.plateNumber =
        (if pyStrip "XYZ789" = "" then none else some (pyStrip "XYZ789"))) :=
  ⟨(C8_extraction_precedence envAllOk dataEx "55ee66ff" rfl).1 "ABC123" "XYZ789"
      rfl rfl rfl,
   (C8_extraction_precedence envC8 dataEx "55ee66ff" rfl).2 "XYZ789" rfl rfl⟩

/-- C10: when extraction succeeds, a value that is empty after whitespace
stripping yields a null plateNumber in the response, and a non-empty stripped
value is returned verbatim. -/
theorem C10_empty_plate_becomes_null (env : PageEnv) (data : LoginRequest) (rid : String)
    (s : String) (h : fatalPass env = true) (hx : extractPlate env = some s) :
    ∃ resp, (open_ppsr_site env data rid).2 = Except.ok resp ∧
      resp.plateNumber = (if s = "" then none else some s) ∧
      (s = "" → resp.plateNumber = none) ∧
      (s ≠ "" → resp.plateNumber = some s) := by
  rw [site_result_happy env data rid h, hx]
  refine ⟨_, rfl, rfl, ?_, ?_⟩
  · intro hs
    simp [hs]
  · intro hs
    simp [hs]

/-- A page environment where the plate element's text is whitespace only. -/
def envC10 : PageEnv := { envAllOk with plateElemRead := some "   " }

/-- Witness for C10: whitespace-only extracted text yields a null plate. -/
theorem C10_empty_plate_becomes_null_witness :
    ∃ resp, (open_ppsr_site envC10 dataEx "3c9d2e11").2 = Except.ok resp ∧
      resp.plateNumber = (if "" = "" then none else some "") ∧
      ("" = "" → resp.plateNumber = none) ∧
      ("" ≠ "" → resp.plateNumber = some "") :=
  C10_empty_plate_becomes_null envC10 dataEx "3c9d2e11" "" rfl (by decide)

end PPSR
